import Mathlib

/-!
Verification of the AKAP federation protocol (`src/akap/federation_protocol.py`)
against its natural-language specification.

The Python module is shallowly embedded: pure helpers become Lean functions,
stateful methods become explicit state passing on a `NodeState` record, Python
exceptions become `Except`, and external services (the sentence-transformer
embedding model, the Claude synthesis client, the socket transport) become
explicit parameters / event lists.  Machine floats are modelled as real
numbers; the `hashlib` digests used by the code are embedded concretely
(SHA-256 and MD5 over the UTF-8 bytes of the input, as in CPython).
-/

namespace AKAP

/-! ### Byte-level helpers (UTF-8 encoding, as CPython's `str.encode()`) -/

/-- Truncate to a 32-bit word, the implicit modulus of the hash arithmetic. -/
def w32 (n : Nat) : Nat := n % 4294967296

/-- Right rotation of a 32-bit word. -/
def rotr32 (x n : Nat) : Nat := w32 ((x >>> n) ||| (x <<< (32 - n)))

/-- Left rotation of a 32-bit word. -/
def rotl32 (x n : Nat) : Nat := w32 ((x <<< n) ||| (x >>> (32 - n)))

/-- UTF-8 encoding of a single character (RFC 3629), as `str.encode()` does. -/
def utf8Bytes (c : Char) : List Nat :=
  let n := c.toNat
  if n < 128 then [n]
  else if n < 2048 then [192 ||| (n >>> 6), 128 ||| (n &&& 63)]
  else if n < 65536 then
    [224 ||| (n >>> 12), 128 ||| ((n >>> 6) &&& 63), 128 ||| (n &&& 63)]
  else
    [240 ||| (n >>> 18), 128 ||| ((n >>> 12) &&& 63),
     128 ||| ((n >>> 6) &&& 63), 128 ||| (n &&& 63)]

/-- UTF-8 bytes of a string, the input `hashlib` hashes in
`content.encode()` / `title.encode()`. -/
def strBytes (s : String) : List Nat := (s.data.map utf8Bytes).flatten

/-- Big-endian byte rendering of a number, `k` bytes wide. -/
def toBytesBE : Nat → Nat → List Nat
  | 0, _ => []
  | k + 1, n => toBytesBE k (n >>> 8) ++ [n &&& 255]

/-- Little-endian byte rendering of a number, `k` bytes wide. -/
def toBytesLE : Nat → Nat → List Nat
  | 0, _ => []
  | k + 1, n => (n &&& 255) :: toBytesLE k (n >>> 8)

/-- Split a byte list into 64-byte blocks (`fuel` bounds the recursion; one
unit per byte is always enough). -/
def chunksAux : Nat → List Nat → List (List Nat)
  | 0, _ => []
  | _, [] => []
  | fuel + 1, a :: rest =>
    ((a :: rest).take 64) :: chunksAux fuel ((a :: rest).drop 64)

/-- Split a byte list into 64-byte blocks. -/
def chunks64 (l : List Nat) : List (List Nat) := chunksAux l.length l

/-- Lower-case hex digit. -/
def hexDigit (n : Nat) : Char :=
  if n = 0 then '0' else if n = 1 then '1' else if n = 2 then '2'
  else if n = 3 then '3' else if n = 4 then '4' else if n = 5 then '5'
  else if n = 6 then '6' else if n = 7 then '7' else if n = 8 then '8'
  else if n = 9 then '9' else if n = 10 then 'a' else if n = 11 then 'b'
  else if n = 12 then 'c' else if n = 13 then 'd' else if n = 14 then 'e'
  else 'f'

/-- Lower-case hex rendering of one byte. -/
def byteHex (n : Nat) : List Char := [hexDigit ((n >>> 4) &&& 15), hexDigit (n &&& 15)]

/-! ### SHA-256 (as `hashlib.sha256(...).hexdigest()`) -/

/-- SHA-256 round constants (FIPS 180-4, rendered in decimal). -/
def sha256K : List Nat :=
  [1116352408, 1899447441, 3049323471, 3921009573, 961987163, 1508970993,
   2453635748, 2870763221, 3624381080, 310598401, 607225278, 1426881987,
   1925078388, 2162078206, 2614888103, 3248222580, 3835390401, 4022224774,
   264347078, 604807628, 770255983, 1249150122, 1555081692, 1996064986,
   2554220882, 2821834349, 2952996808, 3210313671, 3336571891, 3584528711,
   113926993, 338241895, 666307205, 773529912, 1294757372, 1396182291,
   1695183700, 1986661051, 2177026350, 2456956037, 2730485921, 2820302411,
   3259730800, 3345764771, 3516065817, 3600352804, 4094571909, 275423344,
   430227734, 506948616, 659060556, 883997877, 958139571, 1322822218,
   1537002063, 1747873779, 1955562222, 2024104815, 2227730452, 2361852424,
   2428436474, 2756734187, 3204031479, 3329325298]

/-- SHA-256 initial hash state (FIPS 180-4, rendered in decimal). -/
def sha256H0 : List Nat :=
  [1779033703, 3144134277, 1013904242, 2773480762,
   1359893119, 2600822924, 528734635, 1541459225]

/-- SHA-256 / MD5 message padding: a `0x80` byte, zeros to 56 mod 64, then the
bit length rendered on 8 bytes (`lenBytes` differs between the two hashes). -/
def padMessage (msg : List Nat) (lenBytes : Nat → List Nat) : List Nat :=
  let padLen := (119 - msg.length % 64) % 64
  msg ++ [128] ++ List.replicate padLen 0 ++ lenBytes (8 * msg.length)

/-- 32-bit big-endian word `i` of a block. -/
def beWord (b : List Nat) (i : Nat) : Nat :=
  (b.getD (4 * i) 0) <<< 24 ||| (b.getD (4 * i + 1) 0) <<< 16 |||
  (b.getD (4 * i + 2) 0) <<< 8 ||| b.getD (4 * i + 3) 0

/-- 32-bit little-endian word `i` of a block. -/
def leWord (b : List Nat) (i : Nat) : Nat :=
  (b.getD (4 * i + 3) 0) <<< 24 ||| (b.getD (4 * i + 2) 0) <<< 16 |||
  (b.getD (4 * i + 1) 0) <<< 8 ||| b.getD (4 * i) 0

/-- SHA-256 message schedule: 16 block words extended to 64. -/
def sha256Schedule (chunk : List Nat) : List Nat :=
  let w0 := (List.range 16).map (beWord chunk)
  (List.range 48).foldl
    (fun w _ =>
      let t := w.length
      let s0 := rotr32 (w.getD (t - 15) 0) 7 ^^^ rotr32 (w.getD (t - 15) 0) 18 ^^^
                ((w.getD (t - 15) 0) >>> 3)
      let s1 := rotr32 (w.getD (t - 2) 0) 17 ^^^ rotr32 (w.getD (t - 2) 0) 19 ^^^
                ((w.getD (t - 2) 0) >>> 10)
      w ++ [w32 (w.getD (t - 16) 0 + s0 + w.getD (t - 7) 0 + s1)])
    w0

/-- SHA-256 compression of one 64-byte block. -/
def sha256Compress (h : List Nat) (chunk : List Nat) : List Nat :=
  let w := sha256Schedule chunk
  let st := (sha256K.zip w).foldl
    (fun s kw =>
      match s with
      | [a, b, c, d, e, f, g, hh] =>
        let S1 := rotr32 e 6 ^^^ rotr32 e 11 ^^^ rotr32 e 25
        let ch := (e &&& f) ^^^ ((4294967295 - e) &&& g)
        let temp1 := w32 (hh + S1 + ch + kw.1 + kw.2)
        let S0 := rotr32 a 2 ^^^ rotr32 a 13 ^^^ rotr32 a 22
        let maj := (a &&& b) ^^^ (a &&& c) ^^^ (b &&& c)
        let temp2 := w32 (S0 + maj)
        [w32 (temp1 + temp2), a, b, c, w32 (d + temp1), e, f, g]
      | other => other)
    h
  (h.zip st).map (fun p => w32 (p.1 + p.2))

/-- SHA-256 digest of a byte list, as the list of eight 32-bit state words. -/
def sha256Words (msg : List Nat) : List Nat :=
  (chunks64 (padMessage msg (toBytesBE 8))).foldl sha256Compress sha256H0

/-- Hex digest of SHA-256, as `hashlib.sha256(s.encode()).hexdigest()`. -/
def sha256hex (s : String) : String :=
  String.mk (((sha256Words (strBytes s)).map (fun word =>
    ((toBytesBE 4 word).map byteHex).flatten)).flatten)

/-! ### MD5 (as `hashlib.md5(...).hexdigest()`) -/

/-- MD5 per-round addition constants (RFC 1321, `floor(abs(sin(i+1)) * 2^32)`,
rendered in decimal). -/
def md5K : List Nat :=
  [3614090360, 3905402710, 606105819, 3250441966, 4118548399, 1200080426,
   2821735955, 4249261313, 1770035416, 2336552879, 4294925233, 2304563134,
   1804603682, 4254626195, 2792965006, 1236535329, 4129170786, 3225465664,
   643717713, 3921069994, 3593408605, 38016083, 3634488961, 3889429448,
   568446438, 3275163606, 4107603335, 1163531501, 2850285829, 4243563512,
   1735328473, 2368359562, 4294588738, 2272392833, 1839030562, 4259657740,
   2763975236, 1272893353, 4139469664, 3200236656, 681279174, 3936430074,
   3572445317, 76029189, 3654602809, 3873151461, 530742520, 3299628645,
   4096336452, 1126891415, 2878612391, 4237533241, 1700485571, 2399980690,
   4293915773, 2240044497, 1873313359, 4264355552, 2734768916, 1309151649,
   4149444226, 3174756917, 718787259, 3951481745]

/-- MD5 per-round left-rotation amounts. -/
def md5S : List Nat :=
  [7, 12, 17, 22, 7, 12, 17, 22, 7, 12, 17, 22, 7, 12, 17, 22,
   5, 9, 14, 20, 5, 9, 14, 20, 5, 9, 14, 20, 5, 9, 14, 20,
   4, 11, 16, 23, 4, 11, 16, 23, 4, 11, 16, 23, 4, 11, 16, 23,
   6, 10, 15, 21, 6, 10, 15, 21, 6, 10, 15, 21, 6, 10, 15, 21]

/-- Bitwise complement of a 32-bit word. -/
def not32 (x : Nat) : Nat := 4294967295 - x

/-- MD5 round mixing function and message-word index for round `i`. -/
def md5FG (i b c d : Nat) : Nat × Nat :=
  if i < 16 then ((b &&& c) ||| (not32 b &&& d), i)
  else if i < 32 then ((d &&& b) ||| (not32 d &&& c), (5 * i + 1) % 16)
  else if i < 48 then (b ^^^ c ^^^ d, (3 * i + 5) % 16)
  else (c ^^^ (b ||| not32 d), (7 * i) % 16)

/-- MD5 compression of one 64-byte block. -/
def md5Compress (st : List Nat) (chunk : List Nat) : List Nat :=
  let m := (List.range 16).map (leWord chunk)
  let r := (List.range 64).foldl
    (fun s i =>
      match s with
      | [a, b, c, d] =>
        let fg := md5FG i b c d
        let f := w32 (fg.1 + a + md5K.getD i 0 + m.getD fg.2 0)
        [d, w32 (b + rotl32 f (md5S.getD i 0)), b, c]
      | other => other)
    st
  (st.zip r).map (fun p => w32 (p.1 + p.2))

/-- MD5 initial state. -/
def md5Init : List Nat := [0x67452301, 0xefcdab89, 0x98badcfe, 0x10325476]

/-- Hex digest of MD5, as `hashlib.md5(s.encode()).hexdigest()`. -/
def md5hex (s : String) : String :=
  let msg := strBytes s
  let final := (chunks64 (padMessage msg (toBytesLE 8))).foldl md5Compress md5Init
  String.mk ((final.map (fun word => ((toBytesLE 4 word).map byteHex).flatten)).flatten)

/-! ### Data model

Dataclasses of the Python module.  Python `float` is modelled as a real
number, `Dict` as an insertion-ordered association list (CPython dicts
preserve insertion order; assigning an existing key updates it in place,
assigning a fresh key appends), and `Set[str]` as a duplicate-free list in
first-occurrence order (CPython set iteration order is unspecified; no
claim here depends on it). -/

/-- One document record of the knowledge node (`{title, content, concepts,
links}` per the collaborator interface; title is the store key). -/
structure Document where
  content : String
  concepts : List String
  links : List String
deriving DecidableEq

/-- The `metadata` dict attached to a fragment by `create_knowledge_fragments`. -/
structure FragmentMetadata where
  title_hash : String
  content_length : Nat
  link_count : Nat
deriving DecidableEq, Inhabited

/-- The `KnowledgeFragment` dataclass. -/
structure KnowledgeFragment where
  fragment_id : String
  node_id : String
  content_hash : String
  concepts : List String
  themes : List String
  creation_time : String
  last_updated : String
  similarity_embeddings : Option (List ℝ)
  privacy_level : String
  metadata : FragmentMetadata
deriving Inhabited

/-- The `FederationNode` dataclass (a peer record). -/
structure FederationNode where
  node_id : String
  address : String
  port : Nat
  public_key : String
  trust_score : ℝ
  last_seen : String
  capabilities : List String
  shared_concepts : List String

/-- The slice of the `knowledge_node` collaborator the protocol reads:
its document store and its two optional services.  The pattern extractor is
modelled by the (document-independent) outcome of
`extract_document_themes()` — a theme → document-titles mapping, or an
exception; the semantic processor by its `embedding_model.encode` function,
which may raise on a given text. -/
structure KnowledgeNode where
  documents : List (String × Document)
  pattern_extractor : Option (Except Unit (List (String × List String)))
  semantic_processor : Option (String → Except Unit (List ℝ))

/-- The mutable state of an `AKAPFederationProtocol` instance. -/
structure NodeState where
  knowledge_node : KnowledgeNode
  node_id : String
  port : Nat
  peers : List (String × FederationNode)
  shared_fragments : List (String × KnowledgeFragment)
  is_running : Bool

/-- Python exceptions that can escape the embedded methods. -/
inductive PyErr where
  | unboundLocal
  | serviceError
deriving DecidableEq

/-- Python string slicing `s[:n]`, by characters. -/
def pyTake (n : Nat) (s : String) : String := String.mk (s.data.take n)

/-- CPython dict assignment `m[k] = v`: update in place if the key exists,
append otherwise. -/
def dictSet {α : Type} (m : List (String × α)) (k : String) (v : α) :
    List (String × α) :=
  if (m.lookup k).isSome then
    m.map (fun p => if p.1 = k then (k, v) else p)
  else m ++ [(k, v)]

/-! ### Fragment Builder (`create_knowledge_fragments`) -/

/-- Theme lookup of the fragment-builder loop body: the themes whose
document list contains this title, in theme order — or the exception of
`extract_document_themes`, which the loop does NOT catch. -/
def fragmentThemes (kn : KnowledgeNode) (doc_title : String) :
    Except PyErr (List String) :=
  match kn.pattern_extractor with
  | none => .ok []
  | some (.error _) => .error .serviceError
  | some (.ok document_themes) =>
    .ok (document_themes.filterMap fun p =>
      if doc_title ∈ p.2 then some p.1 else none)

/-- Loop body of `create_knowledge_fragments` for one `(doc_title, doc)`
item: hash the content, collect the themes containing the title, request a
truncated embedding of the first 1000 characters (an embedding-service
exception is caught and degrades to `none`), and assemble the fragment.
An exception from `extract_document_themes` propagates. -/
def buildFragment (now node_id : String) (kn : KnowledgeNode)
    (doc_title : String) (doc : Document) : Except PyErr KnowledgeFragment :=
  match fragmentThemes kn doc_title with
  | .error e => .error e
  | .ok themes =>
    let content_hash := sha256hex doc.content
    let embeddings : Option (List ℝ) :=
      match kn.semantic_processor with
      | none => none
      | some encode =>
        match encode (pyTake 1000 doc.content) with
        | .ok doc_embedding => some (doc_embedding.take 50)
        | .error _ => none
    .ok
      { fragment_id := node_id ++ "-" ++ pyTake 8 (md5hex doc_title)
        node_id := node_id
        content_hash := content_hash
        concepts := doc.concepts
        themes := themes
        creation_time := now
        last_updated := now
        similarity_embeddings := embeddings
        privacy_level := "public"
        metadata :=
          { title_hash := md5hex doc_title
            content_length := doc.content.length
            link_count := doc.links.length } }

/-- Iteration of `create_knowledge_fragments` over the document items.  The
store updates performed before an uncaught exception persist (they are
in-place mutations of `self.shared_fragments`), so the partial store is
returned alongside the error. -/
def createFragmentsLoop (now node_id : String) (kn : KnowledgeNode) :
    List (String × Document) → List KnowledgeFragment →
    List (String × KnowledgeFragment) →
    Except PyErr (List KnowledgeFragment) × List (String × KnowledgeFragment)
  | [], fragments, store => (.ok fragments, store)
  | (doc_title, doc) :: rest, fragments, store =>
    match buildFragment now node_id kn doc_title doc with
    | .error e => (.error e, store)
    | .ok fragment =>
      createFragmentsLoop now node_id kn rest (fragments ++ [fragment])
        (dictSet store fragment.fragment_id fragment)

/-- Embedding of `AKAPFederationProtocol.create_knowledge_fragments`.
`now` stands for `datetime.now().isoformat()`. -/
def create_knowledge_fragments (now : String) (st : NodeState) :
    Except PyErr (List KnowledgeFragment) × NodeState :=
  if st.knowledge_node.documents.isEmpty then (.ok [], st)
  else
    let r := createFragmentsLoop now st.node_id st.knowledge_node
      st.knowledge_node.documents [] st.shared_fragments
    (r.1, { st with shared_fragments := r.2 })

/-! ### Similarity Matcher (`_cosine_similarity`, `find_semantic_matches`) -/

/-- Embedding of `AKAPFederationProtocol._cosine_similarity`. -/
noncomputable def _cosine_similarity (vec1 vec2 : List ℝ) : ℝ :=
  if vec1.length ≠ vec2.length then 0
  else
    let dot_product := ((vec1.zip vec2).map fun p => p.1 * p.2).sum
    let magnitude1 := Real.sqrt ((vec1.map fun a => a * a).sum)
    let magnitude2 := Real.sqrt ((vec2.map fun a => a * a).sum)
    if magnitude1 = 0 ∨ magnitude2 = 0 then 0
    else dot_product / (magnitude1 * magnitude2)

/-- The query embedding `find_semantic_matches` compares against: the
encoder applied to the space-joined query concepts, truncated to 50
dimensions (`[]` when the encoder is absent or raises; in those cases the
function returns `[]` before any comparison happens). -/
def queryEmbedding (st : NodeState) (query_concepts : List String) : List ℝ :=
  match st.knowledge_node.semantic_processor with
  | none => []
  | some encode =>
    match encode (String.intercalate " " query_concepts) with
    | .ok v => v.take 50
    | .error _ => []

/-- Embedding of `AKAPFederationProtocol.find_semantic_matches`.  A fragment
whose `similarity_embeddings` is `None` or the empty list is falsy in
Python's `if fragment.similarity_embeddings and ...` test and is skipped.
Python's stable `list.sort(key=..., reverse=True)` is modelled by
`List.mergeSort` on the reversed score order. -/
noncomputable def find_semantic_matches (st : NodeState)
    (query_concepts : List String) (max_results : Nat) : List (String × ℝ) :=
  match st.knowledge_node.semantic_processor with
  | none => []
  | some encode =>
    match encode (String.intercalate " " query_concepts) with
    | .error _ => []
    | .ok qv =>
      let query_embedding := qv.take 50
      let matchesList := st.shared_fragments.filterMap fun p =>
        match p.2.similarity_embeddings with
        | none => none
        | some [] => none
        | some emb =>
          if p.2.node_id ≠ st.node_id then
            let similarity := _cosine_similarity query_embedding emb
            if similarity > 0.3 then some (p.2.node_id, similarity) else none
          else none
      (matchesList.mergeSort fun a b => decide (b.2 ≤ a.2)).take max_results

/-! ### Discovery Protocol (`discover_peers`, `_discover_local_peers`)

The UDP socket is modelled by an environment describing what the transport
does during one invocation: whether `socket.socket()` succeeds, whether
`sendto` succeeds, and the sequence of datagrams delivered by `recvfrom`
before its 2-second timeout fires.  Reaching the end of the datagram list
is the `socket.timeout` exit of the listen loop. -/

/-- One `recvfrom` outcome inside the listen loop.  `wellformed` carries the
fields of a parsed JSON object (`none` for an absent key, as `dict.get`);
`malformed` is a datagram on which `json.loads` raises; `recvError` is a
non-timeout socket exception. -/
inductive Datagram where
  | wellformed (addr : String) (msgType : Option String) (nodeId : Option String)
      (port : Option Nat) (capabilities : List String) (concepts : List String)
  | malformed
  | recvError

/-- Transport behaviour for one discovery invocation.  `now` stands for the
`datetime.now().isoformat()` stamped on discovered peers. -/
structure DiscoveryEnv where
  now : String
  sockOk : Bool
  sendOk : Bool
  datagrams : List Datagram

/-- The `concepts` sample of the broadcast discovery message:
`list(set().union(*[f.concepts for f in self.shared_fragments.values()]))[:20]`.
CPython set iteration order is unspecified; it is modelled as
first-occurrence order.  The sample is only sent on the wire; nothing the
claims examine depends on it. -/
def sampleConcepts (st : NodeState) : List String :=
  (((st.shared_fragments.map fun p => p.2.concepts).flatten).eraseDups).take 20

/-- Listen loop of `_discover_local_peers`.  The inner `try` catches only
`socket.timeout`; a malformed datagram (a `json.loads` error), a missing
`node_id`/`port` key (a `KeyError`) or a receive error propagates to the
outer `except`, which logs and falls through to `return peers` — ending the
window with the peers collected so far.  A well-formed response whose type
matches and whose `node_id` differs from self (an absent `node_id` passes
this test, since `None != self.node_id`) is appended to the returned list
and upserted into `self.peers`. -/
noncomputable def discoverLoop (now self_node_id : String) :
    List Datagram → List FederationNode → List (String × FederationNode) →
    List FederationNode × List (String × FederationNode)
  | [], peers, registry => (peers, registry)
  | .malformed :: _, peers, registry => (peers, registry)
  | .recvError :: _, peers, registry => (peers, registry)
  | .wellformed addr msgType nodeId port caps concepts :: rest, peers, registry =>
    if msgType = some "akap_discovery_response" ∧ nodeId ≠ some self_node_id then
      match nodeId, port with
      | some nid, some prt =>
        let peer : FederationNode :=
          { node_id := nid
            address := addr
            port := prt
            public_key := ""
            trust_score := 0.5
            last_seen := now
            capabilities := caps
            shared_concepts := concepts.eraseDups }
        discoverLoop now self_node_id rest (peers ++ [peer]) (dictSet registry nid peer)
      | _, _ => (peers, registry)
    else discoverLoop now self_node_id rest peers registry

/-- Embedding of `AKAPFederationProtocol._discover_local_peers`.  When
`socket.socket()` itself raises, the outer `except` catches and logs, but
the `finally` block then evaluates `sock.close()` with the local `sock`
never assigned — an `UnboundLocalError` that escapes to the caller. -/
noncomputable def _discover_local_peers (env : DiscoveryEnv) (st : NodeState) :
    Except PyErr (List FederationNode) × NodeState :=
  if !env.sockOk then (.error .unboundLocal, st)
  else if !env.sendOk then (.ok [], st)
  else
    let r := discoverLoop env.now st.node_id env.datagrams [] st.peers
    (.ok r.1, { st with peers := r.2 })

/-- Embedding of `AKAPFederationProtocol.discover_peers`.  The `dht` and
`bootstrap` branches are unimplemented no-ops; an unknown method leaves the
initial empty list untouched. -/
noncomputable def discover_peers (discovery_method : String) (env : DiscoveryEnv)
    (st : NodeState) : Except PyErr (List FederationNode) × NodeState :=
  if discovery_method = "local_broadcast" then _discover_local_peers env st
  else (.ok [], st)

/-! ### Insight Exchange (`share_insights`, `_simulate_peer_insight_response`) -/

/-- Environment of an insight exchange: `now` stands for
`datetime.now().isoformat()` in the request id, and `synthesize` for the
Claude `messages.create` call of `_simulate_peer_insight_response`
(applied to the bounded concept sample and the query; `none` models a
raised exception, which the code catches and turns into `None`). -/
structure InsightEnv where
  now : String
  synthesize : List String → String → Option String

/-- Python `str.split()` with no argument: split on whitespace runs,
yielding no empty words. -/
def pyWords (s : String) : List String :=
  (s.split Char.isWhitespace).filter (fun w => w ≠ "")

/-- Substring test, Python's `word in concept`. -/
def isSubstringOf (needle hay : String) : Bool :=
  hay.data.tails.any (fun t => needle.data.isPrefixOf t)

/-- The `request_id` of the insight request:
`hashlib.md5(f"{query}-{now}".encode()).hexdigest()[:8]`. -/
def insightRequestId (query now : String) : String :=
  pyTake 8 (md5hex (query ++ "-" ++ now))

/-- Embedding of `AKAPFederationProtocol._simulate_peer_insight_response`:
keep the peer's advertised concepts containing any query word
(case-insensitive substring test), answer `none` when no concept matches,
otherwise call the synthesis service on the first 10 matches; the result
carries the insight text, `concepts_used` (first 5 matches) and the fixed
confidence 0.7. -/
noncomputable def _simulate_peer_insight_response (env : InsightEnv)
    (peer : FederationNode) (query : String) : Option (String × List String × ℝ) :=
  let query_words := pyWords query.toLower
  let relevant_concepts := peer.shared_concepts.filter fun concept =>
    query_words.any fun word => isSubstringOf word concept.toLower
  if relevant_concepts.isEmpty then none
  else
    match env.synthesize (relevant_concepts.take 10) query with
    | none => none
    | some insight_text => some (insight_text, relevant_concepts.take 5, 0.7)

/-- Embedding of `AKAPFederationProtocol.share_insights`.  The result pairs
the returned insight with the list of peers actually contacted and the
(unmodified) node state: the method performs no writes to the Peer Registry
or the Fragment Store.  An unknown `peer_node_id` returns `None` before any
contact.  A response whose `insights` text is empty is falsy in
`if response and response.get("insights")` and degrades to `None`. -/
noncomputable def share_insights (env : InsightEnv) (st : NodeState)
    (peer_node_id query : String) : Option String × List String × NodeState :=
  match st.peers.lookup peer_node_id with
  | none => (none, [], st)
  | some peer =>
    match _simulate_peer_insight_response env peer query with
    | none => (none, [peer_node_id], st)
    | some (insights, _, _) =>
      if insights ≠ "" then (some insights, [peer_node_id], st)
      else (none, [peer_node_id], st)

/-! ### Stats and lifecycle -/

/-- The dict returned by `get_federation_stats`. -/
structure FederationStats where
  node_id : String
  shared_fragments : Nat
  connected_peers : Nat
  total_shared_concepts : Nat
  privacy_level : String
  federation_enabled : Bool
deriving DecidableEq

/-- Embedding of `AKAPFederationProtocol.get_federation_stats`.
`total_shared_concepts` is `len(set().union(*[f.concepts for f in
self.shared_fragments.values()]))`, guarded to 0 on an empty store;
`federation_enabled` is the literal `True`. -/
def get_federation_stats (st : NodeState) : FederationStats :=
  { node_id := st.node_id
    shared_fragments := st.shared_fragments.length
    connected_peers := st.peers.length
    total_shared_concepts :=
      if st.shared_fragments.isEmpty then 0
      else ((st.shared_fragments.map fun p => p.2.concepts).flatten).toFinset.card
    privacy_level := "concepts_only"
    federation_enabled := true }

/-- Embedding of `AKAPFederationProtocol.start_federation`: build fragments,
discover peers, set `is_running := true` and return `True`; any exception
escaping either step is caught, leaving `is_running` untouched and
returning `False` (state mutations already performed persist). -/
noncomputable def start_federation (now : String) (denv : DiscoveryEnv)
    (st : NodeState) : Bool × NodeState :=
  match create_knowledge_fragments now st with
  | (.error _, st1) => (false, st1)
  | (.ok _, st1) =>
    match discover_peers "local_broadcast" denv st1 with
    | (.error _, st2) => (false, st2)
    | (.ok _, st2) => (true, { st2 with is_running := true })

/-- Embedding of `AKAPFederationProtocol.stop_federation`. -/
def stop_federation (st : NodeState) : NodeState := { st with is_running := false }

/-! ### Fragment serialization -/

/-- JSON string escaping for the characters our inputs use. -/
def jsonEscapeChar (c : Char) : List Char :=
  if c = '\\' then ['\\', '\\'] else if c = '"' then ['\\', '"'] else [c]

/-- JSON rendering of a string. -/
def jsonStr (s : String) : String :=
  "\"" ++ String.mk ((s.data.map jsonEscapeChar).flatten) ++ "\""

/-- JSON rendering of a list of strings, with `json.dumps` default
separators. -/
def jsonStrList (l : List String) : String :=
  "[" ++ String.intercalate ", " (l.map jsonStr) ++ "]"

/-- Modelled from the spec: the privacy-invariant test scans "the serialized
form of every `KnowledgeFragment`", but no fragment serializer ships under
`src/`; the JSON serialization of the dataclass,
`json.dumps(dataclasses.asdict(fragment))`, is modelled here with dataclass
field order and default separators.  Rendering of the embedding floats is
abstracted as the `showFloat` parameter (an absent embedding serializes as
`null`). -/
def serializeFragment (showFloat : ℝ → String) (f : KnowledgeFragment) : String :=
  "\x7b\"fragment_id\": " ++ jsonStr f.fragment_id ++
  ", \"node_id\": " ++ jsonStr f.node_id ++
  ", \"content_hash\": " ++ jsonStr f.content_hash ++
  ", \"concepts\": " ++ jsonStrList f.concepts ++
  ", \"themes\": " ++ jsonStrList f.themes ++
  ", \"creation_time\": " ++ jsonStr f.creation_time ++
  ", \"last_updated\": " ++ jsonStr f.last_updated ++
  ", \"similarity_embeddings\": " ++
    (match f.similarity_embeddings with
     | none => "null"
     | some v => "[" ++ String.intercalate ", " (v.map showFloat) ++ "]") ++
  ", \"privacy_level\": " ++ jsonStr f.privacy_level ++
  ", \"metadata\": \x7b\"title_hash\": " ++ jsonStr f.metadata.title_hash ++
  ", \"content_length\": " ++ toString f.metadata.content_length ++
  ", \"link_count\": " ++ toString f.metadata.link_count ++ "\x7d\x7d"

/-! ### Predicates and concrete instances used by the claims -/

/-- A datagram whose processing does not abort the listen window: either it
is skipped (wrong type, or from self), or it is a complete response carrying
both `node_id` and `port`. -/
def goodDatagram (self_node_id : String) : Datagram → Prop
  | .malformed => False
  | .recvError => False
  | .wellformed _ msgType nodeId port _ _ =>
    (msgType = some "akap_discovery_response" ∧ nodeId ≠ some self_node_id) →
      (∃ nid, nodeId = some nid) ∧ ∃ prt, port = some prt

/-- A freshly constructed node: no documents, no services, no peers, no
fragments, not running. -/
def emptyNode : NodeState :=
  { knowledge_node := { documents := [], pattern_extractor := none, semantic_processor := none }
    node_id := "akap-node-a"
    port := 8447
    peers := []
    shared_fragments := []
    is_running := false }

/-- A one-word document whose whole content is also its single extracted
concept. -/
def c1_doc : Document :=
  { content := "discovery", concepts := ["discovery"], links := [] }

/-- A node holding only `c1_doc` (title `"note"`), with no theme or
embedding service. -/
def c1_state : NodeState :=
  { emptyNode with
    knowledge_node :=
      { documents := [("note", c1_doc)], pattern_extractor := none, semantic_processor := none } }

/-- The fragment `create_knowledge_fragments` builds from `c1_doc`. -/
def c1_fragment : KnowledgeFragment :=
  ((create_knowledge_fragments "2024-01-01T00:00:00" c1_state).1.toOption.getD []).headI

/-- A discovery run in which the first datagram is malformed and the second
is a complete, well-formed response from another node. -/
def c7_env : DiscoveryEnv :=
  { now := "2024-01-01T00:00:00"
    sockOk := true
    sendOk := true
    datagrams :=
      [.malformed,
       .wellformed "192.168.0.7" (some "akap_discovery_response") (some "akap-node-b")
         (some 8447) [] ["roadmap"]] }

/-- A node whose only document has a failing embedding service. -/
def embedFailNode : NodeState :=
  { emptyNode with
    knowledge_node :=
      { documents := [("doc1", { content := "body", concepts := ["k"], links := [] })]
        pattern_extractor := none
        semantic_processor := some (fun _ => .error ()) } }

/-! ### Shared lemmas -/

/-- A sum of squares is nonnegative. -/
theorem sum_sq_nonneg (v : List ℝ) : 0 ≤ (v.map fun a => a * a).sum := by
  apply List.sum_nonneg
  intro x hx
  obtain ⟨a, _, rfl⟩ := List.mem_map.mp hx
  exact mul_self_nonneg a

/-- A sum of squares over a vector with a nonzero entry is positive. -/
theorem sum_sq_pos (v : List ℝ) (x : ℝ) (hx : x ∈ v) (hx0 : x ≠ 0) :
    0 < (v.map fun a => a * a).sum := by
  have h1 : x * x ≤ (v.map fun a => a * a).sum := by
    apply List.single_le_sum
    · intro y hy
      obtain ⟨a, _, rfl⟩ := List.mem_map.mp hy
      exact mul_self_nonneg a
    · exact List.mem_map.mpr ⟨x, hx, rfl⟩
  exact lt_of_lt_of_le (mul_self_pos.mpr hx0) h1

/-- Pairwise products along the diagonal zip are the squares. -/
theorem zip_self_map (v : List ℝ) :
    ((v.zip v).map fun p => p.1 * p.2) = v.map fun a => a * a := by
  induction v with
  | nil => rfl
  | cons a t ih => simpa using ih

/-! ### C6 — cosine similarity -/

/-- C6: for every nonzero vector `v`, `_cosine_similarity v v = 1`; for every
vector `v` and every zero vector, the similarity is `0`; for equal-length
vectors with both magnitudes nonzero the result is
`dot(a,b) / (‖a‖ * ‖b‖)`; and whenever either magnitude is zero the result
is defined and equals `0` (no division-by-zero error). -/
theorem C6_cosine_similarity :
    (∀ v : List ℝ, (∃ x ∈ v, x ≠ 0) → _cosine_similarity v v = 1) ∧
    (∀ (v : List ℝ) (n : ℕ), _cosine_similarity v (List.replicate n 0) = 0) ∧
    (∀ a b : List ℝ, a.length = b.length →
      Real.sqrt ((a.map fun x => x * x).sum) ≠ 0 →
      Real.sqrt ((b.map fun x => x * x).sum) ≠ 0 →
      _cosine_similarity a b = (((a.zip b).map fun p => p.1 * p.2).sum) /
        (Real.sqrt ((a.map fun x => x * x).sum) *
         Real.sqrt ((b.map fun x => x * x).sum))) ∧
    (∀ a b : List ℝ, Real.sqrt ((a.map fun x => x * x).sum) = 0 ∨
      Real.sqrt ((b.map fun x => x * x).sum) = 0 → _cosine_similarity a b = 0) := by
  refine ⟨?_, ?_, ?_, ?_⟩
  · intro v hv
    obtain ⟨x, hx, hx0⟩ := hv
    have hS : 0 < (v.map fun a => a * a).sum := sum_sq_pos v x hx hx0
    have hsqrt : Real.sqrt ((v.map fun a => a * a).sum) ≠ 0 :=
      ne_of_gt (Real.sqrt_pos.mpr hS)
    simp only [_cosine_similarity, zip_self_map]
    rw [if_neg (by simp), if_neg (not_or.mpr ⟨hsqrt, hsqrt⟩)]
    rw [Real.mul_self_sqrt hS.le]
    exact div_self (ne_of_gt hS)
  · intro v n
    by_cases hlen : v.length = n
    · have hmag : Real.sqrt (((List.replicate n (0 : ℝ)).map fun a => a * a).sum) = 0 := by
        simp
      simp only [_cosine_similarity]
      rw [if_neg (by simp [hlen])]
      rw [if_pos (Or.inr hmag)]
    · simp only [_cosine_similarity]
      rw [if_pos (by simp [hlen])]
  · intro a b hlen ha hb
    simp only [_cosine_similarity]
    rw [if_neg (by simp [hlen])]
    rw [if_neg (by tauto)]
  · intro a b hmag
    simp only [_cosine_similarity]
    by_cases hlen : a.length = b.length
    · rw [if_neg (by simp [hlen]), if_pos hmag]
    · rw [if_pos (by simp [hlen])]

/-- Witness for C6 at concrete vectors. -/
theorem C6_witness :
    _cosine_similarity [(1 : ℝ)] [(1 : ℝ)] = 1 ∧
    _cosine_similarity [(1 : ℝ)] (List.replicate 1 (0 : ℝ)) = 0 ∧
    _cosine_similarity [(2 : ℝ)] [(3 : ℝ)] =
      ((([(2 : ℝ)].zip [(3 : ℝ)]).map fun p => p.1 * p.2).sum) /
        (Real.sqrt (([(2 : ℝ)].map fun x => x * x).sum) *
         Real.sqrt (([(3 : ℝ)].map fun x => x * x).sum)) ∧
    _cosine_similarity [(1 : ℝ), 0] [(0 : ℝ)] = 0 := by
  refine ⟨C6_cosine_similarity.1 [1] ⟨1, by simp, one_ne_zero⟩,
          C6_cosine_similarity.2.1 [1] 1,
          C6_cosine_similarity.2.2.1 [2] [3] rfl ?_ ?_,
          C6_cosine_similarity.2.2.2 [(1 : ℝ), 0] [0] (Or.inr ?_)⟩
  · norm_num [Real.sqrt_eq_zero']
  · norm_num [Real.sqrt_eq_zero']
  · norm_num

/-- When the pattern extractor is absent or answers without raising, the
loop body always produces a fragment. -/
theorem buildFragment_ok (now nid : String) (kn : KnowledgeNode)
    (hExt : kn.pattern_extractor = none ∨ ∃ tm, kn.pattern_extractor = some (.ok tm))
    (t : String) (d : Document) : ∃ f, buildFragment now nid kn t d = .ok f := by
  have hth : ∃ themes, fragmentThemes kn t = .ok themes := by
    rcases hExt with h | ⟨tm, h⟩
    · exact ⟨[], by simp [fragmentThemes, h]⟩
    · exact ⟨tm.filterMap (fun p => if t ∈ p.2 then some p.1 else none),
        by simp [fragmentThemes, h]⟩
  obtain ⟨themes, hth⟩ := hth
  cases hb : buildFragment now nid kn t d with
  | ok f => exact ⟨f, rfl⟩
  | error e =>
    exfalso
    unfold buildFragment at hb
    rw [hth] at hb
    simp at hb

/-- Field facts about any fragment the loop body produces: its privacy level
is the literal `"public"`, it belongs to the local node, and an
embedding-service failure leaves `similarity_embeddings = none`. -/
theorem buildFragment_fields (now nid : String) (kn : KnowledgeNode) (t : String)
    (d : Document) (f : KnowledgeFragment) (h : buildFragment now nid kn t d = .ok f) :
    f.privacy_level = "public" ∧ f.node_id = nid ∧
    (∀ enc, kn.semantic_processor = some enc → enc (pyTake 1000 d.content) = .error () →
      f.similarity_embeddings = none) := by
  unfold buildFragment at h
  cases hth : fragmentThemes kn t with
  | error e => rw [hth] at h; exact absurd h (by simp)
  | ok themes =>
    rw [hth] at h
    simp only [Except.ok.injEq] at h
    subst h
    refine ⟨rfl, rfl, ?_⟩
    intro enc henc herr
    simp [henc, herr]

/-- The fragment-building loop succeeds under a well-behaved pattern
extractor, appending exactly one fragment per document. -/
theorem createFragmentsLoop_ok (now nid : String) (kn : KnowledgeNode)
    (hExt : kn.pattern_extractor = none ∨ ∃ tm, kn.pattern_extractor = some (.ok tm)) :
    ∀ (docs : List (String × Document)) (acc : List KnowledgeFragment)
      (store : List (String × KnowledgeFragment)),
      ∃ tail store',
        createFragmentsLoop now nid kn docs acc store = (.ok (acc ++ tail), store') ∧
        List.Forall₂ (fun (td : String × Document) (f : KnowledgeFragment) =>
          buildFragment now nid kn td.1 td.2 = .ok f) docs tail := by
  intro docs
  induction docs with
  | nil =>
    intro acc store
    exact ⟨[], store, by simp [createFragmentsLoop], List.Forall₂.nil⟩
  | cons td rest ih =>
    intro acc store
    obtain ⟨t, d⟩ := td
    obtain ⟨f, hf⟩ := buildFragment_ok now nid kn hExt t d
    obtain ⟨tail, store', hloop, hfa⟩ := ih (acc ++ [f]) (dictSet store f.fragment_id f)
    refine ⟨f :: tail, store', ?_, List.Forall₂.cons hf hfa⟩
    simp only [createFragmentsLoop, hf, hloop]
    simp

/-- Elements of an upserted dict are old entries or carry the new value. -/
theorem mem_dictSet {α : Type} (m : List (String × α)) (k : String) (v : α)
    (p : String × α) (hp : p ∈ dictSet m k v) : p ∈ m ∨ p.2 = v := by
  unfold dictSet at hp
  split at hp
  · obtain ⟨q, hq, hpq⟩ := List.mem_map.mp hp
    by_cases hk : q.1 = k
    · right; rw [← hpq]; simp [hk]
    · left; rw [← hpq]; simpa [hk] using hq
  · rcases List.mem_append.mp hp with hmem | hmem
    · exact .inl hmem
    · right
      simp only [List.mem_singleton] at hmem
      rw [hmem]

/-- Store/result facts the loop maintains on success: the accumulator is a
prefix of the result, all produced fragments are `"public"` when the
accumulated ones are, and every final store entry is an initial entry or
holds a result fragment. -/
theorem createFragmentsLoop_public (now nid : String) (kn : KnowledgeNode) :
    ∀ (docs : List (String × Document)) (acc : List KnowledgeFragment)
      (store : List (String × KnowledgeFragment)) res store',
      createFragmentsLoop now nid kn docs acc store = (.ok res, store') →
      (∀ x ∈ acc, x ∈ res) ∧
      ((∀ f ∈ acc, f.privacy_level = "public") → ∀ f ∈ res, f.privacy_level = "public") ∧
      (∀ p ∈ store', p ∈ store ∨ p.2 ∈ res) := by
  intro docs
  induction docs with
  | nil =>
    intro acc store res store' h
    simp only [createFragmentsLoop, Prod.mk.injEq, Except.ok.injEq] at h
    obtain ⟨hres, hstore⟩ := h
    subst hres; subst hstore
    exact ⟨fun x hx => hx, fun hp => hp, fun p hp => .inl hp⟩
  | cons td rest ih =>
    intro acc store res store' h
    obtain ⟨t, d⟩ := td
    simp only [createFragmentsLoop] at h
    cases hf : buildFragment now nid kn t d with
    | error e => rw [hf] at h; simp at h
    | ok f =>
      rw [hf] at h
      obtain ⟨hacc, hpub, hstore⟩ := ih (acc ++ [f]) (dictSet store f.fragment_id f) res store' h
      have hfres : f ∈ res := hacc f (by simp)
      refine ⟨fun x hx => hacc x (by simp [hx]), ?_, ?_⟩
      · intro hallacc g hg
        apply hpub _ g hg
        intro g' hg'
        rcases List.mem_append.mp hg' with hmem | hmem
        · exact hallacc g' hmem
        · simp only [List.mem_singleton] at hmem
          rw [hmem]
          exact (buildFragment_fields now nid kn t d f hf).1
      · intro p hp
        rcases hstore p hp with hmem | hmem
        · rcases mem_dictSet store f.fragment_id f p hmem with hmem' | hmem'
          · exact .inl hmem'
          · exact .inr (hmem' ▸ hfres)
        · exact .inr hmem

/-- Replacing the entries of one key leaves lookups of other keys alone and
maps the looked-up value of that key. -/
theorem lookup_map_upsert {α : Type} (m : List (String × α)) (k k' : String) (v : α) :
    (m.map fun p => if p.1 = k then (k, v) else p).lookup k' =
      (m.lookup k').map (fun w => if k' = k then v else w) := by
  induction m with
  | nil => rfl
  | cons a rest ih =>
    obtain ⟨ak, av⟩ := a
    by_cases hak : ak = k
    · subst hak
      by_cases hk' : k' = ak
      · subst hk'
        simp [List.lookup_cons, ih]
      · simp [List.lookup_cons, beq_false_of_ne hk', ih]
    · by_cases hk' : k' = ak
      · subst hk'
        have : ¬k' = k := hak
        simp [List.lookup_cons, hak, this]
      · simp [List.lookup_cons, hak, beq_false_of_ne hk', ih]

/-- Lookup after appending a fresh binding at the tail. -/
theorem lookup_append_single {α : Type} (m : List (String × α)) (k k' : String) (v : α) :
    (m ++ [(k, v)]).lookup k' =
      match m.lookup k' with
      | some w => some w
      | none => if k' = k then some v else none := by
  induction m with
  | nil => by_cases hk : k' = k <;> simp [List.lookup_cons, hk, beq_false_of_ne]
  | cons a rest ih =>
    obtain ⟨ak, av⟩ := a
    by_cases hk' : k' = ak
    · subst hk'
      simp [List.lookup_cons]
    · simp [List.lookup_cons, beq_false_of_ne hk', ih]

/-- The upsert `dictSet` behaves as a map update on lookups. -/
theorem lookup_dictSet {α : Type} (m : List (String × α)) (k k' : String) (v : α) :
    (dictSet m k v).lookup k' = if k' = k then some v else m.lookup k' := by
  unfold dictSet
  split
  case isTrue hsome =>
    rw [lookup_map_upsert]
    by_cases hk : k' = k
    · subst hk
      obtain ⟨w, hw⟩ := Option.isSome_iff_exists.mp hsome
      simp [hw]
    · simp [hk]
  case isFalse hnone =>
    rw [lookup_append_single]
    by_cases hk : k' = k
    · subst hk
      have : m.lookup k' = none := by
        cases hl : m.lookup k' with
        | none => rfl
        | some w => exact absurd (by simp [hl]) hnone
      simp [this]
    · cases hl : m.lookup k' with
      | none => simp [hk]
      | some w => simp [hk]

/-- The discovery listen loop never creates a registry entry under the
node's own id. -/
theorem discoverLoop_lookup_self (now self : String) :
    ∀ (evts : List Datagram) (acc : List FederationNode)
      (reg : List (String × FederationNode)),
      ((discoverLoop now self evts acc reg).2).lookup self = reg.lookup self := by
  intro evts
  induction evts with
  | nil => intro acc reg; rfl
  | cons e rest ih =>
    intro acc reg
    cases e with
    | malformed => rfl
    | recvError => rfl
    | wellformed addr t n p caps cs =>
      simp only [discoverLoop]
      split
      case isTrue h =>
        cases n with
        | none => rfl
        | some nid =>
          cases p with
          | none => rfl
          | some prt =>
            rw [ih, lookup_dictSet]
            have hne : ¬self = nid := fun heq => h.2 (by rw [heq])
            rw [if_neg hne]
      case isFalse h => exact ih acc reg

/-- Peers already accumulated stay in the listen loop's returned list. -/
theorem discoverLoop_acc_mono (now self : String) :
    ∀ (evts : List Datagram) (acc : List FederationNode)
      (reg : List (String × FederationNode)) (x : FederationNode),
      x ∈ acc → x ∈ (discoverLoop now self evts acc reg).1 := by
  intro evts
  induction evts with
  | nil => intro acc reg x hx; exact hx
  | cons e rest ih =>
    intro acc reg x hx
    cases e with
    | malformed => exact hx
    | recvError => exact hx
    | wellformed addr t n p caps cs =>
      simp only [discoverLoop]
      split
      case isTrue h =>
        cases n with
        | none => exact hx
        | some nid =>
          cases p with
          | none => exact hx
          | some prt => exact ih _ _ x (List.mem_append_left _ hx)
      case isFalse h => exact ih acc reg x hx

/-- Registry entries present before the listen loop stay present. -/
theorem discoverLoop_reg_mono (now self : String) :
    ∀ (evts : List Datagram) (acc : List FederationNode)
      (reg : List (String × FederationNode)) (k : String),
      (reg.lookup k).isSome → (((discoverLoop now self evts acc reg).2).lookup k).isSome := by
  intro evts
  induction evts with
  | nil => intro acc reg k hk; exact hk
  | cons e rest ih =>
    intro acc reg k hk
    cases e with
    | malformed => exact hk
    | recvError => exact hk
    | wellformed addr t n p caps cs =>
      simp only [discoverLoop]
      split
      case isTrue h =>
        cases n with
        | none => exact hk
        | some nid =>
          cases p with
          | none => exact hk
          | some prt =>
            apply ih
            rw [lookup_dictSet]
            by_cases hkn : k = nid
            · simp [hkn]
            · rwa [if_neg hkn]
      case isFalse h => exact ih acc reg k hk

/-- A complete well-formed response reached before any aborting datagram is
turned into a peer (trust 0.5, fresh `last_seen`) that is both returned and
upserted. -/
theorem discoverLoop_registers (now self addr nid : String) (prt : Nat)
    (caps cs : List String) (hnid : nid ≠ self) :
    ∀ (pre post : List Datagram) (acc : List FederationNode)
      (reg : List (String × FederationNode)),
      (∀ e ∈ pre, goodDatagram self e) →
      (⟨nid, addr, prt, "", 0.5, now, caps, cs.eraseDups⟩ : FederationNode) ∈
        (discoverLoop now self
          (pre ++ .wellformed addr (some "akap_discovery_response") (some nid)
            (some prt) caps cs :: post) acc reg).1 ∧
      (((discoverLoop now self
          (pre ++ .wellformed addr (some "akap_discovery_response") (some nid)
            (some prt) caps cs :: post) acc reg).2).lookup nid).isSome := by
  intro pre
  induction pre with
  | nil =>
    intro post acc reg _
    simp only [List.nil_append, discoverLoop]
    rw [if_pos (by simp [hnid] : _ ∧ _)]
    constructor
    · exact discoverLoop_acc_mono now self post _ _ _ (List.mem_append_right _ (by simp))
    · apply discoverLoop_reg_mono
      rw [lookup_dictSet, if_pos rfl]
      rfl
  | cons e pre' ih =>
    intro post acc reg hgood
    have hge : goodDatagram self e := hgood e (by simp)
    have hgood' : ∀ d ∈ pre', goodDatagram self d := fun d hd => hgood d (by simp [hd])
    cases e with
    | malformed => exact absurd hge (by simp [goodDatagram])
    | recvError => exact absurd hge (by simp [goodDatagram])
    | wellformed addr' t' n' p' caps' cs' =>
      simp only [List.cons_append, discoverLoop]
      split
      case isTrue h =>
        obtain ⟨⟨nid', hn'⟩, ⟨prt', hp'⟩⟩ := hge h
        subst hn'; subst hp'
        exact ih post _ _ hgood'
      case isFalse h => exact ih post acc reg hgood'

/-! ### C3 — one fragment per document, embedding failure degrades -/

/-- C3: with a well-behaved pattern extractor, `create_knowledge_fragments`
never raises and returns exactly one fragment per document in order; a
document on which the embedding service raises still gets its fragment,
with `similarity_embeddings = none`. -/
theorem C3_one_fragment_per_document (now : String) (st : NodeState)
    (hExt : st.knowledge_node.pattern_extractor = none ∨
      ∃ tm, st.knowledge_node.pattern_extractor = some (.ok tm)) :
    ∃ frags st', create_knowledge_fragments now st = (.ok frags, st') ∧
      frags.length = st.knowledge_node.documents.length ∧
      List.Forall₂ (fun (td : String × Document) (f : KnowledgeFragment) =>
        buildFragment now st.node_id st.knowledge_node td.1 td.2 = .ok f ∧
        ∀ enc, st.knowledge_node.semantic_processor = some enc →
          enc (pyTake 1000 td.2.content) = .error () →
          f.similarity_embeddings = none)
        st.knowledge_node.documents frags := by
  by_cases hdocs : st.knowledge_node.documents.isEmpty
  · refine ⟨[], st, by simp [create_knowledge_fragments, hdocs], ?_, ?_⟩
    · simp [List.isEmpty_iff.mp hdocs]
    · rw [List.isEmpty_iff.mp hdocs]
      exact List.Forall₂.nil
  · obtain ⟨tail, store', hloop, hfa⟩ := createFragmentsLoop_ok now st.node_id
      st.knowledge_node hExt st.knowledge_node.documents [] st.shared_fragments
    refine ⟨tail, { st with shared_fragments := store' },
      by simp [create_knowledge_fragments, hdocs, hloop], hfa.length_eq.symm, ?_⟩
    refine hfa.imp ?_
    intro td f hbf
    exact ⟨hbf, (buildFragment_fields now st.node_id st.knowledge_node td.1 td.2 f hbf).2.2⟩

/-- Witness for C3: a node whose single document has an always-failing
embedding service still yields one fragment, with no embedding. -/
theorem C3_witness :
    ∃ frags st', create_knowledge_fragments "2024-01-01T00:00:00" embedFailNode =
        (.ok frags, st') ∧
      frags.length = embedFailNode.knowledge_node.documents.length ∧
      List.Forall₂ (fun (td : String × Document) (f : KnowledgeFragment) =>
        buildFragment "2024-01-01T00:00:00" embedFailNode.node_id
          embedFailNode.knowledge_node td.1 td.2 = .ok f ∧
        ∀ enc, embedFailNode.knowledge_node.semantic_processor = some enc →
          enc (pyTake 1000 td.2.content) = .error () →
          f.similarity_embeddings = none)
        embedFailNode.knowledge_node.documents frags :=
  C3_one_fragment_per_document "2024-01-01T00:00:00" embedFailNode (Or.inl rfl)

/-! ### C10 — privacy level is always "public" -/

/-- C10: every fragment produced by a successful `create_knowledge_fragments`
run carries `privacy_level = "public"` (the builder never produces
`protected` or `private`), and a store of public fragments stays public. -/
theorem C10_privacy_always_public (now : String) (st : NodeState)
    (frags : List KnowledgeFragment) (st' : NodeState)
    (h : create_knowledge_fragments now st = (.ok frags, st')) :
    (∀ f ∈ frags, f.privacy_level = "public") ∧
    ((∀ p ∈ st.shared_fragments, p.2.privacy_level = "public") →
      ∀ p ∈ st'.shared_fragments, p.2.privacy_level = "public") := by
  unfold create_knowledge_fragments at h
  by_cases hdocs : st.knowledge_node.documents.isEmpty
  · rw [if_pos hdocs] at h
    obtain ⟨hfr, hst⟩ := Prod.mk.injEq .. ▸ h
    cases h
    exact ⟨by simp, fun hp => hp⟩
  · rw [if_neg hdocs] at h
    cases hl : createFragmentsLoop now st.node_id st.knowledge_node
        st.knowledge_node.documents [] st.shared_fragments with
    | mk r1 r2 =>
      rw [hl] at h
      simp only [Prod.mk.injEq] at h
      obtain ⟨h1, h2⟩ := h
      subst h1
      obtain ⟨_, hpub, hstore⟩ := createFragmentsLoop_public now st.node_id
        st.knowledge_node st.knowledge_node.documents [] st.shared_fragments frags r2 hl
      refine ⟨hpub (by simp), ?_⟩
      intro hinit p hp
      have : p ∈ st'.shared_fragments := hp
      rw [← h2] at hp
      simp only at hp
      rcases hstore p hp with hmem | hmem
      · exact hinit p hmem
      · exact hpub (by simp) _ hmem

/-! ### C8 — unknown peer rejected immediately -/

/-- C8: when `peer_node_id` is not in the Peer Registry, `share_insights`
returns `None` immediately, contacts no peer, and leaves the node state
(Peer Registry and Fragment Store included) unchanged. -/
theorem C8_unknown_peer_rejected (env : InsightEnv) (st : NodeState)
    (peer_node_id query : String) (h : st.peers.lookup peer_node_id = none) :
    share_insights env st peer_node_id query = (none, [], st) := by
  unfold share_insights
  rw [h]

/-- Witness for C8: a fresh node with an empty registry. -/
theorem C8_witness :
    share_insights ⟨"2024-01-01T00:00:00", fun _ _ => some "insight"⟩ emptyNode
      "akap-node-b" "product discovery" = (none, [], emptyNode) :=
  C8_unknown_peer_rejected _ _ _ _ rfl

/-! ### C9 — federation stats -/

/-- C9 counterexample: before any `start()` the node is not running, yet the
stats record reports the constant `True` for its federation flag (and keeps
doing so after `stop_federation`); the flag does not reflect the lifecycle
state. -/
theorem C9_counterexample :
    emptyNode.is_running = false ∧
    (get_federation_stats emptyNode).federation_enabled = true ∧
    (get_federation_stats (stop_federation emptyNode)).federation_enabled = true :=
  ⟨rfl, rfl, rfl⟩

/-- C9 amended: `get_federation_stats` returns the node id, the fragment
count, the peer count, the number of distinct shared concepts, a privacy
level, and a boolean federation flag that is constantly `true`, independent
of the node's lifecycle state. -/
theorem C9_stats_fields (st : NodeState) :
    (get_federation_stats st).node_id = st.node_id ∧
    (get_federation_stats st).shared_fragments = st.shared_fragments.length ∧
    (get_federation_stats st).connected_peers = st.peers.length ∧
    (get_federation_stats st).total_shared_concepts =
      ((st.shared_fragments.map fun p => p.2.concepts).flatten).toFinset.card ∧
    (get_federation_stats st).privacy_level = "concepts_only" ∧
    (get_federation_stats st).federation_enabled = true := by
  refine ⟨rfl, rfl, rfl, ?_, rfl, rfl⟩
  unfold get_federation_stats
  by_cases h : st.shared_fragments.isEmpty
  · simp [h, List.isEmpty_iff.mp h]
  · simp [h]

/-! ### C2 — discovery and the unbound socket variable -/

/-- C2 at the failing input: when `socket.socket()` itself raises, the outer
`except` catches the socket error, but the `finally` block evaluates
`sock.close()` with `sock` never bound, so `_discover_local_peers` (and
through it `discover_peers`) raises `UnboundLocalError` instead of
returning a list. -/
theorem C2_socket_creation_raises :
    _discover_local_peers ⟨"2024-01-01T00:00:00", false, true, []⟩ emptyNode =
      (.error .unboundLocal, emptyNode) ∧
    discover_peers "local_broadcast" ⟨"2024-01-01T00:00:00", false, true, []⟩ emptyNode =
      (.error .unboundLocal, emptyNode) ∧
    _discover_local_peers ⟨"2024-01-01T00:00:00", true, true, []⟩ emptyNode =
      (.ok [], emptyNode) :=
  ⟨rfl, rfl, rfl⟩

/-! ### C4 — start_federation and discovery failure -/

/-- C4 at the failing input: fragment building succeeds (no documents), yet a
failure of `socket.socket()` during peer discovery leaks an
`UnboundLocalError` out of `_discover_local_peers`, so `start_federation`
catches it, returns `False`, and the node is NOT running — a discovery
failure that does block the transition to `running`, contrary to the claim.
With a working socket, the same node starts even with zero discovered
peers. -/
theorem C4_discovery_failure_blocks_start :
    start_federation "2024-01-01T00:00:00" ⟨"2024-01-01T00:00:00", false, true, []⟩ emptyNode =
      (false, emptyNode) ∧
    emptyNode.is_running = false ∧
    (start_federation "2024-01-01T00:00:00" ⟨"2024-01-01T00:00:00", true, true, []⟩
      emptyNode).1 = true ∧
    (start_federation "2024-01-01T00:00:00" ⟨"2024-01-01T00:00:00", true, true, []⟩
      emptyNode).2.is_running = true :=
  ⟨rfl, rfl, rfl, rfl⟩

/-! ### C1 — fragments and raw document content -/

set_option maxRecDepth 40000 in
/-- C1 counterexample: for the one-word document `c1_doc`, whose whole
content `"discovery"` is also its extracted concept, the fragment built by
`create_knowledge_fragments` serializes to a string that contains the raw
document content as a contiguous substring (through its `concepts` field) —
the claim's serialized-form clause fails at this concrete input. -/
theorem C1_counterexample :
    c1_doc.content = "discovery" ∧
    (create_knowledge_fragments "2024-01-01T00:00:00" c1_state).1 = .ok [c1_fragment] ∧
    isSubstringOf c1_doc.content (serializeFragment (fun _ => "") c1_fragment) = true :=
  ⟨rfl, rfl, by decide⟩

/-- C1 amended: a fragment never stores the raw content directly — the
builder's output depends on the document's content only through its SHA-256
hash, its character length, and the embedding of its 1000-character prefix;
two documents agreeing on those (and on concepts and link count) yield
identical fragments.  The raw content can nevertheless coincide with an
extracted concept label, in which case it appears verbatim in the
serialized fragment. -/
theorem C1_content_noninterference (now node_id : String) (kn : KnowledgeNode)
    (doc_title : String) (d d' : Document)
    (hcon : d.concepts = d'.concepts)
    (hlinks : d.links.length = d'.links.length)
    (hlen : d.content.length = d'.content.length)
    (hhash : sha256hex d.content = sha256hex d'.content)
    (hembed : ∀ enc, kn.semantic_processor = some enc →
      enc (pyTake 1000 d.content) = enc (pyTake 1000 d'.content)) :
    buildFragment now node_id kn doc_title d = buildFragment now node_id kn doc_title d' := by
  unfold buildFragment
  cases hth : fragmentThemes kn doc_title with
  | error e => rfl
  | ok themes =>
    have hemb : (match kn.semantic_processor with
        | none => none
        | some encode =>
          match encode (pyTake 1000 d.content) with
          | .ok doc_embedding => some (doc_embedding.take 50)
          | .error _ => none) =
        (match kn.semantic_processor with
        | none => none
        | some encode =>
          match encode (pyTake 1000 d'.content) with
          | .ok doc_embedding => some (doc_embedding.take 50)
          | .error _ => (none : Option (List ℝ))) := by
      cases hspc : kn.semantic_processor with
      | none => rfl
      | some enc =>
        dsimp only
        rw [hembed enc hspc]
    simp only []
    rw [hhash, hcon, hlen, hlinks, hemb]

/-- Witness for the amended C1: two documents with the same content but
different links (of equal count) produce the same fragment. -/
theorem C1_witness :
    buildFragment "2024-01-01T00:00:00" "akap-node-a"
      ⟨[], none, none⟩ "t" ⟨"c", ["k"], ["a"]⟩ =
    buildFragment "2024-01-01T00:00:00" "akap-node-a"
      ⟨[], none, none⟩ "t" ⟨"c", ["k"], ["b"]⟩ :=
  C1_content_noninterference "2024-01-01T00:00:00" "akap-node-a" ⟨[], none, none⟩ "t"
    ⟨"c", ["k"], ["a"]⟩ ⟨"c", ["k"], ["b"]⟩ rfl rfl rfl rfl (fun _ h => nomatch h)

set_option maxRecDepth 40000 in
/-- Witness for C10 on a concrete run: the fragment built from `c1_doc` is
public. -/
theorem C10_witness :
    (∀ f ∈ [c1_fragment], f.privacy_level = "public") ∧
    c1_fragment.privacy_level = "public" := by
  have h : create_knowledge_fragments "2024-01-01T00:00:00" c1_state =
      (.ok [c1_fragment], (create_knowledge_fragments "2024-01-01T00:00:00" c1_state).2) :=
    rfl
  have hc := C10_privacy_always_public "2024-01-01T00:00:00" c1_state [c1_fragment]
    (create_knowledge_fragments "2024-01-01T00:00:00" c1_state).2 h
  exact ⟨hc.1, hc.1 c1_fragment (by simp)⟩

/-! ### C7 — discovery responses and the peer registry -/

/-- C7 counterexample: a well-formed response from another node that arrives
after a malformed datagram is never registered — the `json.loads` error on
the malformed datagram escapes the inner `try` (which catches only
`socket.timeout`) and ends the whole listen window, so the loop returns the
empty peer list and the registry is untouched, although the listen window's
well-formed response should have been upserted. -/
theorem C7_counterexample :
    c7_env.datagrams.get? 1 =
      some (.wellformed "192.168.0.7" (some "akap_discovery_response")
        (some "akap-node-b") (some 8447) [] ["roadmap"]) ∧
    "akap-node-b" ≠ emptyNode.node_id ∧
    _discover_local_peers c7_env emptyNode = (.ok [], emptyNode) := by
  refine ⟨rfl, by decide, rfl⟩

/-- C7 amended: every well-formed `discovery_response` processed before any
aborting datagram (malformed JSON, missing `node_id`/`port` key, or receive
error) whose `node_id` differs from the local node is turned into a
`FederationNode` with `trust_score = 0.5` and `last_seen = now` that is
returned and upserted into the Peer Registry under its `node_id`; and no
invocation ever registers an entry under the local node's own id. -/
theorem C7_response_registration :
    (∀ (env : DiscoveryEnv) (st : NodeState) (pre post : List Datagram)
       (addr nid : String) (prt : Nat) (caps cs : List String),
      env.sockOk = true → env.sendOk = true →
      env.datagrams = pre ++ .wellformed addr (some "akap_discovery_response")
        (some nid) (some prt) caps cs :: post →
      (∀ e ∈ pre, goodDatagram st.node_id e) →
      nid ≠ st.node_id →
      (⟨nid, addr, prt, "", 0.5, env.now, caps, cs.eraseDups⟩ : FederationNode) ∈
        ((_discover_local_peers env st).1.toOption.getD []) ∧
      (((_discover_local_peers env st).2.peers.lookup nid)).isSome) ∧
    (∀ (env : DiscoveryEnv) (st : NodeState),
      ((_discover_local_peers env st).2).peers.lookup st.node_id =
        st.peers.lookup st.node_id) := by
  constructor
  · intro env st pre post addr nid prt caps cs hsock hsend hdata hgood hnid
    obtain ⟨hmem, hreg⟩ := discoverLoop_registers env.now st.node_id addr nid prt caps cs
      hnid pre post [] st.peers hgood
    rw [← hdata] at hmem hreg
    unfold _discover_local_peers
    rw [hsock, hsend]
    exact ⟨hmem, hreg⟩
  · intro env st
    unfold _discover_local_peers
    cases hsock : env.sockOk with
    | false => rfl
    | true =>
      cases hsend : env.sendOk with
      | false => rfl
      | true =>
        simp only [Bool.not_true, Bool.false_eq_true, if_false]
        exact discoverLoop_lookup_self env.now st.node_id env.datagrams [] st.peers

/-- Witness for the amended C7: a single well-formed response registers the
peer at trust 0.5. -/
theorem C7_witness :
    (⟨"akap-node-b", "10.0.0.2", 9000, "", 0.5, "2024-01-01T00:00:00", [],
        (["x", "x"] : List String).eraseDups⟩ : FederationNode) ∈
      ((_discover_local_peers
        ⟨"2024-01-01T00:00:00", true, true,
          [.wellformed "10.0.0.2" (some "akap_discovery_response") (some "akap-node-b")
            (some 9000) [] ["x", "x"]]⟩ emptyNode).1.toOption.getD []) ∧
    (((_discover_local_peers
        ⟨"2024-01-01T00:00:00", true, true,
          [.wellformed "10.0.0.2" (some "akap_discovery_response") (some "akap-node-b")
            (some 9000) [] ["x", "x"]]⟩ emptyNode).2.peers.lookup "akap-node-b")).isSome :=
  C7_response_registration.1
    ⟨"2024-01-01T00:00:00", true, true,
      [.wellformed "10.0.0.2" (some "akap_discovery_response") (some "akap-node-b")
        (some 9000) [] ["x", "x"]]⟩
    emptyNode [] [] "10.0.0.2" "akap-node-b" 9000 [] ["x", "x"] rfl rfl rfl
    (by intro e he; exact absurd he (by simp)) (by decide)

/-! ### C5 — semantic match ranking -/

/-- The merge-sorted, truncated match list is sorted by descending score. -/
theorem pairwise_take_mergeSort (l : List (String × ℝ)) (n : Nat) :
    ((l.mergeSort fun a b => decide (b.2 ≤ a.2)).take n).Pairwise
      (fun a b : String × ℝ => b.2 ≤ a.2) := by
  have hs : (l.mergeSort fun a b => decide (b.2 ≤ a.2)).Pairwise
      (fun a b : String × ℝ => decide (b.2 ≤ a.2) = true) := by
    apply List.sorted_mergeSort
    · intro a b c hab hbc
      simp only [decide_eq_true_eq] at hab hbc ⊢
      exact le_trans hbc hab
    · intro a b
      simp only [Bool.or_eq_true, decide_eq_true_eq]
      exact le_total b.2 a.2
  have hs' : (l.mergeSort fun a b => decide (b.2 ≤ a.2)).Pairwise
      (fun a b : String × ℝ => b.2 ≤ a.2) := by
    refine hs.imp ?_
    intro a b h
    exact of_decide_eq_true h
  exact List.Pairwise.sublist (List.take_sublist _ _) hs'

/-- Members of the truncated merge-sorted list come from the original list. -/
theorem mem_take_mergeSort {p : String × ℝ} {l : List (String × ℝ)}
    {le : String × ℝ → String × ℝ → Bool} {n : Nat}
    (hp : p ∈ (l.mergeSort le).take n) : p ∈ l :=
  List.mem_mergeSort.mp (List.mem_of_mem_take hp)

/-- C5: `find_semantic_matches` returns a list of `(node_id, score)` pairs
sorted descending by score, truncated to `max_results`, whose every member
comes from a stored fragment with a present, non-empty embedding and a
`node_id` different from the local node, with cosine score strictly above
the 0.3 threshold. -/
theorem C5_find_semantic_matches (st : NodeState) (query_concepts : List String)
    (max_results : Nat) :
    (find_semantic_matches st query_concepts max_results).Pairwise
      (fun a b : String × ℝ => b.2 ≤ a.2) ∧
    (find_semantic_matches st query_concepts max_results).length ≤ max_results ∧
    ∀ p ∈ find_semantic_matches st query_concepts max_results,
      0.3 < p.2 ∧ p.1 ≠ st.node_id ∧
      ∃ q ∈ st.shared_fragments, ∃ emb, q.2.similarity_embeddings = some emb ∧
        emb ≠ [] ∧ q.2.node_id = p.1 ∧
        p.2 = _cosine_similarity (queryEmbedding st query_concepts) emb := by
  cases hsp : st.knowledge_node.semantic_processor with
  | none =>
    simp only [find_semantic_matches, hsp]
    exact ⟨List.Pairwise.nil, by simp, by simp⟩
  | some encode =>
    cases henc : encode (String.intercalate " " query_concepts) with
    | error e =>
      simp only [find_semantic_matches, hsp, henc]
      exact ⟨List.Pairwise.nil, by simp, by simp⟩
    | ok qv =>
      have hqe : queryEmbedding st query_concepts = qv.take 50 := by
        simp [queryEmbedding, hsp, henc]
      simp only [find_semantic_matches, hsp, henc]
      refine ⟨pairwise_take_mergeSort _ _, List.length_take_le _ _, ?_⟩
      intro p hp
      obtain ⟨q, hq, hfq⟩ := List.mem_filterMap.mp (mem_take_mergeSort hp)
      cases hemb : q.2.similarity_embeddings with
      | none => rw [hemb] at hfq; simp at hfq
      | some emb =>
        cases emb with
        | nil => rw [hemb] at hfq; simp at hfq
        | cons x xs =>
          rw [hemb] at hfq
          simp only [] at hfq
          by_cases hne : q.2.node_id ≠ st.node_id
          · rw [if_pos hne] at hfq
            by_cases hsim :
                _cosine_similarity (qv.take 50) (x :: xs) > 0.3
            · rw [if_pos hsim] at hfq
              simp only [Option.some.injEq] at hfq
              subst hfq
              exact ⟨hsim, hne, q, hq, x :: xs, hemb, by simp, rfl, by rw [hqe]⟩
            · rw [if_neg hsim] at hfq
              exact absurd hfq (by simp)
          · rw [if_neg hne] at hfq
            exact absurd hfq (by simp)

/-- Witness for C5 at a concrete node and query. -/
theorem C5_witness :
    (find_semantic_matches emptyNode ["discovery"] 5).Pairwise
      (fun a b : String × ℝ => b.2 ≤ a.2) ∧
    (find_semantic_matches emptyNode ["discovery"] 5).length ≤ 5 :=
  ⟨(C5_find_semantic_matches emptyNode ["discovery"] 5).1,
   (C5_find_semantic_matches emptyNode ["discovery"] 5).2.1⟩

end AKAP
